import Mathlib

/-!
Shallow embedding of the SkyWatch API-key gateway (src/api/middleware.py,
src/api/auth.py, src/api/dependencies.py, src/api/routers/auth.py) and
proofs about its tier policy, rate limiter, quota tracker and middleware
pipeline.
-/

namespace SkyWatch

/-! ## Tier policy (src/api/auth.py, src/api/dependencies.py) -/

/-- `get_quota_limit_for_tier` from src/api/auth.py: dict lookup with
default 1000 (the free tier's quota). -/
def get_quota_limit_for_tier (tier : String) : ℕ :=
  if tier = "free" then 1000
  else if tier = "basic" then 10000
  else if tier = "pro" then 100000
  else if tier = "enterprise" then 1000000
  else 1000

/-- `get_rate_limit_for_tier` from src/api/auth.py: dict lookup with
default 60 (the free tier's hourly rate). -/
def get_rate_limit_for_tier (tier : String) : ℕ :=
  if tier = "free" then 60
  else if tier = "basic" then 300
  else if tier = "pro" then 1000
  else if tier = "enterprise" then 5000
  else 60

/-- The `tier_hierarchy` dict of `require_tier` in src/api/dependencies.py,
as a partial lookup (`dict.get` without default). -/
def tier_hierarchy (t : String) : Option ℕ :=
  if t = "free" then some 0
  else if t = "basic" then some 1
  else if t = "pro" then some 2
  else if t = "enterprise" then some 3
  else none

/-- `tier_hierarchy.get(t, dflt)`. -/
def tierLevel (t : String) (dflt : ℕ) : ℕ :=
  (tier_hierarchy t).getD dflt

/-! ## Dates (Python `datetime` restricted to what the gateway uses).
A UTC instant: calendar year, month, day plus the time of day in
microseconds (Python `datetime` resolution is exactly one microsecond).
Comparison is lexicographic, exactly as Python compares `datetime`
values. -/

structure UTCTime where
  year : ℕ
  month : ℕ
  day : ℕ
  micro : ℕ
deriving DecidableEq, Repr

/-- Lexicographic strict comparison of instants (Python `<` on datetime). -/
def UTCTime.ltb (a b : UTCTime) : Bool :=
  if a.year ≠ b.year then decide (a.year < b.year)
  else if a.month ≠ b.month then decide (a.month < b.month)
  else if a.day ≠ b.day then decide (a.day < b.day)
  else decide (a.micro < b.micro)

/-- Lexicographic non-strict comparison (Python `<=` on datetime). -/
def UTCTime.leb (a b : UTCTime) : Bool :=
  UTCTime.ltb a b || decide (a = b)

/-- `calculate_quota_reset_date` from src/api/auth.py: the first day of the
month after `now` at midnight UTC, with December rolling to January 1 of
the next year. -/
def calculate_quota_reset_date (now : UTCTime) : UTCTime :=
  if now.month = 12 then ⟨now.year + 1, 1, 1, 0⟩
  else ⟨now.year, now.month + 1, 1, 0⟩

/-- `is_quota_expired` from src/api/auth.py: `now >= reset_date`. -/
def is_quota_expired (reset_date : UTCTime) (now : UTCTime) : Bool :=
  UTCTime.leb reset_date now

/-! ## Key hashing (src/api/auth.py).

Modelled from the spec: the bcrypt primitive itself is a third-party
library ("Password hashing … consumed as given primitives, not
redesigned"); §4.1 describes it as a slow, salted one-way function whose
verification is correct on well-formed hashes and raises on malformed
stored values.  We idealise it as collision-free: a well-formed stored
hash determines the plaintext it was derived from, and verification of a
malformed stored value raises (modelled as `Except.error`). -/

inductive StoredHash where
  | bcrypt (cost : ℕ) (plain : String)
  | malformed (raw : String)
deriving DecidableEq, Repr

/-- Modelled from the spec: idealised `passlib` bcrypt `hash`. -/
def bcryptHash (s : String) (rounds : ℕ) : StoredHash :=
  StoredHash.bcrypt rounds s

/-- Modelled from the spec: idealised `passlib` bcrypt `verify`; raises
(`Except.error`) on a malformed stored hash. -/
def bcryptVerify (s : String) (h : StoredHash) : Except String Bool :=
  match h with
  | StoredHash.bcrypt _ p => Except.ok (decide (p = s))
  | StoredHash.malformed r => Except.error r

/-- `generate_api_key` from src/api/auth.py; the 32 random bytes' hex
encoding is passed in as `randomHex`. -/
def generate_api_key (randomHex : String) : String :=
  "sk_live_" ++ randomHex

/-- `hash_api_key` from src/api/auth.py: bcrypt with cost factor 10. -/
def hash_api_key (api_key : String) : StoredHash :=
  bcryptHash api_key 10

/-- `verify_api_key` from src/api/auth.py: bcrypt verification with any
exception (invalid hash format) caught and turned into `false`. -/
def verify_api_key (api_key : String) (hashed_key : StoredHash) : Bool :=
  match bcryptVerify api_key hashed_key with
  | Except.ok b => b
  | Except.error _ => false

/-! ## Rate limiter (class `RateLimiter`, src/api/middleware.py).

Wall-clock instants from `time.time()` are modelled as integer clock
ticks (only ordering and the fixed 3600-second offset matter).  The
per-key `defaultdict` of deques is an association list from the key hash
(the dict key `api_key_hash`) to that key's deque of timestamps. -/

/-- The `while requests and requests[0] < hour_ago: requests.popleft()`
loop: pop from the front while the front is strictly older than
`hour_ago`. -/
def dropOldLoop (hour_ago : ℤ) : List ℤ → List ℤ
  | [] => []
  | t :: ts => if t < hour_ago then dropOldLoop hour_ago ts else t :: ts

/-- `RateLimiter.is_allowed` on a single key's deque: drop old entries,
reject if the remaining count has reached the limit, otherwise append
`now` and allow.  Returns the decision and the mutated deque. -/
def is_allowed_dq (dq : List ℤ) (rate_limit : ℕ) (now : ℤ) : Bool × List ℤ :=
  if rate_limit ≤ (dropOldLoop (now - 3600) dq).length then
    (false, dropOldLoop (now - 3600) dq)
  else (true, dropOldLoop (now - 3600) dq ++ [now])

/-- The rate limiter's `self.requests` dictionary. -/
abbrev RLState := List (StoredHash × List ℤ)

/-- `defaultdict` read: the deque stored for a key, `[]` when absent. -/
def RLState.getDeque : RLState → StoredHash → List ℤ
  | [], _ => []
  | p :: rest, k => if p.1 = k then p.2 else RLState.getDeque rest k

/-- Store a key's (mutated) deque back into the dictionary, creating the
entry if absent (the `defaultdict` behaviour). -/
def RLState.setDeque : RLState → StoredHash → List ℤ → RLState
  | [], k, dq => [(k, dq)]
  | p :: rest, k, dq =>
    if p.1 = k then (k, dq) :: rest else p :: RLState.setDeque rest k dq

/-- `RateLimiter.is_allowed` from src/api/middleware.py, acting on the
whole dictionary. -/
def RateLimiter.is_allowed (rl : RLState) (api_key_hash : StoredHash)
    (rate_limit : ℕ) (now : ℤ) : Bool × RLState :=
  ((is_allowed_dq (rl.getDeque api_key_hash) rate_limit now).1,
   rl.setDeque api_key_hash
     (is_allowed_dq (rl.getDeque api_key_hash) rate_limit now).2)

/-- Repeated `is_allowed` calls on one key's deque at the given sequence
of clock readings; returns the decisions in order and the final deque. -/
def runCalls (rate_limit : ℕ) : List ℤ → List ℤ → List Bool × List ℤ
  | [], dq => ([], dq)
  | t :: ts, dq =>
    ((is_allowed_dq dq rate_limit t).1 ::
      (runCalls rate_limit ts (is_allowed_dq dq rate_limit t).2).1,
     (runCalls rate_limit ts (is_allowed_dq dq rate_limit t).2).2)

/-! ## Data model (src/api/models.py), gateway tables only. -/

/-- The `ApiKey` row (src/api/models.py).  `is_active` carries the column
default `True`; `last_used` is nullable. -/
structure ApiKey where
  id : ℕ
  key_hash : StoredHash
  name : String
  tier : String
  quota_limit : ℕ
  quota_used : ℕ
  quota_reset_date : UTCTime
  is_active : Bool
  last_used : Option UTCTime
  user_id : ℕ
deriving DecidableEq, Repr

/-- The `Usage` row (src/api/models.py), fields written by
`_record_usage`. -/
structure Usage where
  api_key_id : ℕ
  endpoint : String
  method : String
  response_status : ℕ
  response_time_ms : ℕ
  user_agent : Option String
  ip_address : Option String
  timestamp : UTCTime
deriving DecidableEq, Repr

/-- `UPDATE api_keys SET … WHERE id = kid`: apply `f` to every row whose
`id` matches. -/
def updateKeyById (keys : List ApiKey) (kid : ℕ) (f : ApiKey → ApiKey) :
    List ApiKey :=
  keys.map (fun k => if k.id = kid then f k else k)

/-- `SELECT … WHERE id = kid` (first matching row). -/
def getKeyById (keys : List ApiKey) (kid : ℕ) : Option ApiKey :=
  keys.find? (fun k => decide (k.id = kid))

/-! ## Gateway middleware (class `APIKeyMiddleware`, src/api/middleware.py). -/

/-- Python `str.startswith`, on the underlying character lists. -/
def strStartsWith (s p : String) : Bool :=
  p.data.isPrefixOf s.data

/-- The inbound HTTP request, restricted to what the middleware reads.
Header values model Python `headers.get(...)`: `none` when the header is
absent. -/
structure GatewayRequest where
  path : String
  method : String
  xApiKey : Option String
  authorization : Option String
  userAgent : Option String
  forwardedFor : Option String
  realIp : Option String
  clientHost : Option String
deriving DecidableEq, Repr

/-- `APIKeyMiddleware._is_public_endpoint`: `path.startswith(p)` for any
entry of the fixed `public_endpoints` list. -/
def is_public_endpoint (path : String) : Bool :=
  ["/", "/health", "/docs", "/redoc", "/openapi.json", "/swagger",
   "/static", "/map", "/v1/map", "/v1/auth/register", "/v1/auth/login",
   "/v1/auth/me", "/v1/auth/keys", "/v1/research"].any
    (fun p => strStartsWith path p)

/-- The `Authorization: Bearer <key>` fallback inside
`_extract_api_key`: Python truthiness makes an absent or empty header
fail, then `startswith("Bearer ")` gates stripping the 7-character
prefix of the header value. -/
def bearerFallback (r : GatewayRequest) : Option String :=
  match r.authorization with
  | some a =>
    if a ≠ "" && strStartsWith a "Bearer " then some (String.mk (a.data.drop 7))
    else none
  | none => none

/-- `APIKeyMiddleware._extract_api_key`: `X-API-Key` first (empty string
is falsy in Python), else the bearer fallback. -/
def extract_api_key (r : GatewayRequest) : Option String :=
  match r.xApiKey with
  | some k => if k ≠ "" then some k else bearerFallback r
  | none => bearerFallback r

/-- `APIKeyMiddleware._validate_api_key`: select the active rows, then
return the first whose stored hash verifies against the presented key. -/
def validate_api_key (keys : List ApiKey) (api_key : String) : Option ApiKey :=
  (keys.filter (fun k => k.is_active)).find?
    (fun k => verify_api_key api_key k.key_hash)

/-- `APIKeyMiddleware._is_quota_exceeded` together with the `_reset_quota`
row update it triggers: on an expired period the row is reset (counter to
0, boundary to the first of the month after `now`) and the check reports
not-exceeded; otherwise the row is untouched and the check reports
`quota_used >= quota_limit`. -/
def is_quota_exceeded (api_key_info : ApiKey) (now : UTCTime) :
    Bool × ApiKey :=
  if is_quota_expired api_key_info.quota_reset_date now then
    (false, { api_key_info with
                quota_used := 0
                quota_reset_date := calculate_quota_reset_date now })
  else
    (decide (api_key_info.quota_limit ≤ api_key_info.quota_used),
     api_key_info)

/-- `APIKeyMiddleware._get_client_ip`: `X-Forwarded-For` (first
comma-separated entry, stripped) if truthy, else `X-Real-IP` if truthy,
else the direct client host. -/
def get_client_ip (r : GatewayRequest) : Option String :=
  match r.forwardedFor with
  | some f =>
    if f ≠ "" then some (((f.splitOn ",").headD "").trim)
    else
      match r.realIp with
      | some ip => if ip ≠ "" then some ip else r.clientHost
      | none => r.clientHost
  | none =>
    match r.realIp with
    | some ip => if ip ≠ "" then some ip else r.clientHost
    | none => r.clientHost

/-- What the middleware sent to the caller. -/
inductive GatewayOutcome where
  /-- Public path: the pipeline was bypassed and the downstream app ran. -/
  | passthrough (status : ℕ)
  /-- A gateway-originated structured error response. -/
  | errorResponse (status : ℕ) (error : String) (message : String)
  /-- The pipeline was cleared and the downstream handler's response was
  sent. -/
  | handled (status : ℕ)
deriving DecidableEq, Repr

/-- HTTP status of an outcome. -/
def GatewayOutcome.statusCode : GatewayOutcome → ℕ
  | GatewayOutcome.passthrough s => s
  | GatewayOutcome.errorResponse s _ _ => s
  | GatewayOutcome.handled s => s

/-- The machine-readable error code of an outcome, when it is a
gateway-originated error. -/
def GatewayOutcome.errCode : GatewayOutcome → Option String
  | GatewayOutcome.errorResponse _ e _ => some e
  | _ => none

/-- The persistent state the gateway touches: the two database tables and
the in-memory rate-limiter dictionary. -/
structure GatewayState where
  keys : List ApiKey
  usages : List Usage
  rl : RLState
deriving DecidableEq, Repr

/-- Result of one `APIKeyMiddleware.__call__`: the outcome sent to the
caller, whether the Key Store was consulted, whether the downstream app
ran, whether an exception escaped the middleware call, and the final
state. -/
structure CallResult where
  outcome : GatewayOutcome
  keyStoreConsulted : Bool
  handlerInvoked : Bool
  raised : Bool
  state : GatewayState
deriving DecidableEq, Repr

/-- The tail of `__call__` once the quota check has passed: rate-limit
check (whose old-entry cleanup persists even on rejection), downstream
handler invocation, then the usage insert and the quota/`last_used`
increment.  `usageWriteFails` models the usage insert raising; there is
no handler around it in the source, so the exception escapes and the
quota increment is never reached. -/
def gatewayAfterQuota (st : GatewayState) (req : GatewayRequest)
    (info : ApiKey) (now : UTCTime) (rlNow : ℤ) (handlerStatus : ℕ)
    (responseTimeMs : ℕ) (usageWriteFails : Bool) : CallResult :=
  let rate_limit := get_rate_limit_for_tier info.tier
  let r := RateLimiter.is_allowed st.rl info.key_hash rate_limit rlNow
  let st2 := { st with rl := r.2 }
  if r.1 = false then
    { outcome := GatewayOutcome.errorResponse 429 "rate_limit_exceeded"
        ("Rate limit of " ++ toString rate_limit ++
         " requests per hour exceeded.")
      keyStoreConsulted := true, handlerInvoked := false, raised := false
      state := st2 }
  else if usageWriteFails then
    { outcome := GatewayOutcome.handled handlerStatus
      keyStoreConsulted := true, handlerInvoked := true, raised := true
      state := st2 }
  else
    let usage : Usage :=
      { api_key_id := info.id, endpoint := req.path, method := req.method
        response_status := handlerStatus, response_time_ms := responseTimeMs
        user_agent := req.userAgent, ip_address := get_client_ip req
        timestamp := now }
    let st3 := { st2 with usages := st2.usages ++ [usage] }
    let st4 := { st3 with
      keys := updateKeyById st3.keys info.id
        (fun k => { k with quota_used := k.quota_used + 1
                           last_used := some now }) }
    { outcome := GatewayOutcome.handled handlerStatus
      keyStoreConsulted := true, handlerInvoked := true, raised := false
      state := st4 }

/-- `APIKeyMiddleware.__call__` from src/api/middleware.py.  `now` is the
wall clock used for database timestamps, `rlNow` the `time.time()`
reading used by the rate limiter, `handlerStatus` the status the
downstream app responds with when invoked, `responseTimeMs` the measured
latency, `usageWriteFails` whether the usage-ledger insert raises.  The
source's `if not api_key:` is a Python truthiness test, so both an
absent key and an extracted empty string (e.g. a bare
`Authorization: "Bearer "` header) take the missing-key 401 branch
before the Key Store is consulted. -/
def middlewareCall (st : GatewayState) (req : GatewayRequest)
    (now : UTCTime) (rlNow : ℤ) (handlerStatus : ℕ) (responseTimeMs : ℕ)
    (usageWriteFails : Bool) : CallResult :=
  if is_public_endpoint req.path then
    { outcome := GatewayOutcome.passthrough handlerStatus
      keyStoreConsulted := false, handlerInvoked := true, raised := false
      state := st }
  else
    match extract_api_key req with
    | none =>
      { outcome := GatewayOutcome.errorResponse 401 "authentication_error"
          "API key required. Include 'X-API-Key' header or 'Authorization: Bearer <key>' header."
        keyStoreConsulted := false, handlerInvoked := false, raised := false
        state := st }
    | some api_key =>
      if api_key = "" then
        { outcome := GatewayOutcome.errorResponse 401 "authentication_error"
            "API key required. Include 'X-API-Key' header or 'Authorization: Bearer <key>' header."
          keyStoreConsulted := false, handlerInvoked := false, raised := false
          state := st }
      else
      match validate_api_key st.keys api_key with
      | none =>
        { outcome := GatewayOutcome.errorResponse 401 "authentication_error"
            "The provided API key is invalid or has been revoked."
          keyStoreConsulted := true, handlerInvoked := false, raised := false
          state := st }
      | some info =>
        if info.is_active = false then
          { outcome := GatewayOutcome.errorResponse 401 "authentication_error"
              "This API key has been disabled."
            keyStoreConsulted := true, handlerInvoked := false, raised := false
            state := st }
        else if is_quota_expired info.quota_reset_date now then
          let st1 := { st with
            keys := updateKeyById st.keys info.id
              (fun k => { k with quota_used := 0
                                 quota_reset_date :=
                                   calculate_quota_reset_date now }) }
          gatewayAfterQuota st1 req info now rlNow handlerStatus
            responseTimeMs usageWriteFails
        else if decide (info.quota_limit ≤ info.quota_used) then
          { outcome := GatewayOutcome.errorResponse 429 "quota_exceeded"
              ("Monthly quota of " ++ toString info.quota_limit ++
               " requests exceeded.")
            keyStoreConsulted := true, handlerInvoked := false, raised := false
            state := st }
        else
          gatewayAfterQuota st req info now rlNow handlerStatus
            responseTimeMs usageWriteFails

/-! ## Key creation and tier authorization
(src/api/routers/auth.py `create_api_key`, src/api/dependencies.py
`require_tier`). -/

/-- `create_api_key` from src/api/routers/auth.py: count the caller's
active keys, reject with HTTP 400 at 10 or more, otherwise insert one new
row.  `newId` is the autoincrement id, `randomHex` the randomness behind
`generate_api_key`.  Returns the new table, the new row and the plaintext
secret, or the HTTP status of the rejection. -/
def create_api_key (keys : List ApiKey) (userId : ℕ)
    (keyName keyTier : String) (newId : ℕ) (randomHex : String)
    (now : UTCTime) : Except ℕ (List ApiKey × ApiKey × String) :=
  let active_key_count :=
    (keys.filter (fun k => decide (k.user_id = userId) && k.is_active)).length
  if 10 ≤ active_key_count then Except.error 400
  else
    let api_key := generate_api_key randomHex
    let key_hash := hash_api_key api_key
    let new_api_key : ApiKey :=
      { id := newId, key_hash := key_hash, name := keyName, tier := keyTier
        quota_limit := get_quota_limit_for_tier keyTier, quota_used := 0
        quota_reset_date := calculate_quota_reset_date now
        is_active := true, last_used := none, user_id := userId }
    Except.ok (keys ++ [new_api_key], new_api_key, api_key)

/-- `require_tier` from src/api/dependencies.py: compare the key's tier
rank (unknown → 0) against the required rank (unknown → 3); strictly
below → HTTP 403 naming both tiers. -/
def require_tier (required_tier : String) (api_key : ApiKey) :
    Except (ℕ × String) ApiKey :=
  let current_tier_level := tierLevel api_key.tier 0
  let required_tier_level := tierLevel required_tier 3
  if current_tier_level < required_tier_level then
    Except.error (403,
      "This endpoint requires " ++ required_tier ++
      " tier or higher. Current tier: " ++ api_key.tier)
  else Except.ok api_key

/-- `Except.isOk`-style discriminator used in statements. -/
def exceptIsOk {ε α : Type} : Except ε α → Bool
  | Except.ok _ => true
  | Except.error _ => false

/-! ## Theorems -/

/-- Claim C6: an unrecognized tier string falls back to the free tier's
quota (1000) and hourly rate (60); the tier ranking is
free < basic < pro < enterprise, an unrecognized required tier ranks
highest (3) and an unrecognized key tier lowest (0); `require_tier`
rejects with HTTP 403 naming both tiers exactly when the key's tier ranks
strictly below the required tier. -/
theorem tier_policy_fail_safe :
    (∀ t : String, t ≠ "free" → t ≠ "basic" → t ≠ "pro" →
      t ≠ "enterprise" →
      get_quota_limit_for_tier t = 1000 ∧ get_rate_limit_for_tier t = 60 ∧
      tierLevel t 0 = 0 ∧ tierLevel t 3 = 3) ∧
    (tierLevel "free" 0 < tierLevel "basic" 0 ∧
     tierLevel "basic" 0 < tierLevel "pro" 0 ∧
     tierLevel "pro" 0 < tierLevel "enterprise" 0) ∧
    (∀ (required : String) (k : ApiKey),
      (exceptIsOk (require_tier required k) = false ↔
        tierLevel k.tier 0 < tierLevel required 3) ∧
      (tierLevel k.tier 0 < tierLevel required 3 →
        require_tier required k = Except.error (403,
          "This endpoint requires " ++ required ++
          " tier or higher. Current tier: " ++ k.tier))) := by
  refine ⟨fun t h1 h2 h3 h4 => ?_, by decide, fun required k => ?_⟩
  · simp [get_quota_limit_for_tier, get_rate_limit_for_tier, tierLevel,
      tier_hierarchy, h1, h2, h3, h4]
  · by_cases hlt : tierLevel k.tier 0 < tierLevel required 3 <;>
      simp [require_tier, hlt, exceptIsOk]

/-- Witness for C6 at the unrecognized tier string "gold". -/
theorem tier_policy_fail_safe_witness :
    get_quota_limit_for_tier "gold" = 1000 ∧
    get_rate_limit_for_tier "gold" = 60 := by
  have h := tier_policy_fail_safe.1 "gold"
    (by decide) (by decide) (by decide) (by decide)
  exact ⟨h.1, h.2.1⟩

/-- Claim C7: for every generated secret, verification against its own
stored hash succeeds; a different presented secret fails; and a malformed
stored hash makes `verify_api_key` return `false` (the exception is
caught) rather than propagate. -/
theorem verify_api_key_correct :
    (∀ randomHex : String,
      verify_api_key (generate_api_key randomHex)
        (hash_api_key (generate_api_key randomHex)) = true) ∧
    (∀ s wrong : String, wrong ≠ s →
      verify_api_key wrong (hash_api_key s) = false) ∧
    (∀ s raw : String,
      verify_api_key s (StoredHash.malformed raw) = false) := by
  refine ⟨fun hex => ?_, fun s wrong h => ?_, fun s raw => ?_⟩
  · simp [verify_api_key, hash_api_key, bcryptHash, bcryptVerify]
  · simp only [verify_api_key, hash_api_key, bcryptHash, bcryptVerify,
      decide_eq_false_iff_not]
    exact fun hh => h hh.symm
  · simp [verify_api_key, bcryptVerify]

/-- Witness for C7 with secret randomness "ab" and wrong guess "x". -/
theorem verify_api_key_correct_witness :
    verify_api_key (generate_api_key "ab")
      (hash_api_key (generate_api_key "ab")) = true ∧
    verify_api_key "x" (hash_api_key "sk_live_ab") = false := by
  exact ⟨verify_api_key_correct.1 "ab",
    verify_api_key_correct.2.1 "sk_live_ab" "x" (by decide)⟩

/-- Claim C9: key creation rejects with HTTP 400 (creating nothing) when
the account already has 10 or more active keys, and with fewer than 10
inserts exactly one row with `quota_used = 0`, `quota_limit` from the
tier table and `is_active` defaulting to true. -/
theorem create_api_key_limit (keys : List ApiKey) (userId : ℕ)
    (nm tr : String) (newId : ℕ) (hex : String) (now : UTCTime) :
    (10 ≤ (keys.filter
        (fun k => decide (k.user_id = userId) && k.is_active)).length →
      create_api_key keys userId nm tr newId hex now = Except.error 400) ∧
    ((keys.filter
        (fun k => decide (k.user_id = userId) && k.is_active)).length < 10 →
      ∃ nk : ApiKey,
        create_api_key keys userId nm tr newId hex now =
          Except.ok (keys ++ [nk], nk, generate_api_key hex) ∧
        nk.quota_used = 0 ∧
        nk.quota_limit = get_quota_limit_for_tier tr ∧
        nk.is_active = true ∧
        nk.quota_reset_date = calculate_quota_reset_date now ∧
        nk.user_id = userId ∧
        nk.key_hash = hash_api_key (generate_api_key hex)) := by
  constructor
  · intro h
    simp only [create_api_key, if_pos h]
  · intro h
    refine ⟨{ id := newId, key_hash := hash_api_key (generate_api_key hex),
              name := nm, tier := tr,
              quota_limit := get_quota_limit_for_tier tr, quota_used := 0,
              quota_reset_date := calculate_quota_reset_date now,
              is_active := true, last_used := none, user_id := userId },
            ?_, rfl, rfl, rfl, rfl, rfl, rfl⟩
    unfold create_api_key
    rw [if_neg (by omega)]

/-- Witness for C9: creation succeeds on an empty key table. -/
theorem create_api_key_limit_witness :
    ∃ nk : ApiKey,
      create_api_key [] 1 "n" "free" 1 "ab" ⟨2024, 3, 15, 0⟩ =
        Except.ok ([nk], nk, generate_api_key "ab") ∧
      nk.quota_used = 0 ∧
      nk.quota_limit = get_quota_limit_for_tier "free" ∧
      nk.is_active = true ∧
      nk.quota_reset_date = calculate_quota_reset_date ⟨2024, 3, 15, 0⟩ ∧
      nk.user_id = 1 ∧
      nk.key_hash = hash_api_key (generate_api_key "ab") := by
  have h := (create_api_key_limit [] 1 "n" "free" 1 "ab"
    ⟨2024, 3, 15, 0⟩).2 (by decide)
  simpa using h

/-- The computed reset boundary lies strictly after the check moment. -/
lemma ltb_calculate_quota_reset_date (now : UTCTime) :
    UTCTime.ltb now (calculate_quota_reset_date now) = true := by
  by_cases h : now.month = 12 <;>
    simp [calculate_quota_reset_date, UTCTime.ltb, h]

/-- Immediately after a reset the new boundary has not yet passed. -/
lemma is_quota_expired_calculate (now : UTCTime) :
    is_quota_expired (calculate_quota_reset_date now) now = false := by
  obtain ⟨y, m, d, u⟩ := now
  by_cases h : m = 12 <;>
    simp [calculate_quota_reset_date, is_quota_expired, UTCTime.leb,
      UTCTime.ltb, UTCTime.mk.injEq, h]

/-- Claim C4: the quota check on an expired key reports not-exceeded,
resets `quota_used` to 0 and advances `quota_reset_date` to the first of
the month after the check moment (a strictly future boundary); on a key
within its period it reports exceeded iff `quota_used >= quota_limit` and
changes nothing; and a second check right after the first changes nothing
either. -/
theorem quota_check_lazy_reset (key : ApiKey) (now : UTCTime) :
    (is_quota_expired key.quota_reset_date now = true →
      (is_quota_exceeded key now).1 = false ∧
      (is_quota_exceeded key now).2.quota_used = 0 ∧
      (is_quota_exceeded key now).2.quota_reset_date =
        calculate_quota_reset_date now ∧
      UTCTime.ltb now (is_quota_exceeded key now).2.quota_reset_date =
        true) ∧
    (is_quota_expired key.quota_reset_date now = false →
      (is_quota_exceeded key now).1 =
        decide (key.quota_limit ≤ key.quota_used) ∧
      (is_quota_exceeded key now).2 = key) ∧
    (is_quota_exceeded (is_quota_exceeded key now).2 now =
      (decide ((is_quota_exceeded key now).2.quota_limit ≤
               (is_quota_exceeded key now).2.quota_used),
       (is_quota_exceeded key now).2)) := by
  by_cases h : is_quota_expired key.quota_reset_date now = true
  · refine ⟨fun _ => ?_, ?_, ?_⟩
    · unfold is_quota_exceeded
      rw [if_pos h]
      exact ⟨rfl, rfl, rfl, ltb_calculate_quota_reset_date now⟩
    · intro hf
      rw [h] at hf
      cases hf
    · unfold is_quota_exceeded
      rw [if_pos h]
      simp only
      rw [if_neg (by simp [is_quota_expired_calculate now])]
  · rw [Bool.not_eq_true] at h
    refine ⟨?_, fun _ => ?_, ?_⟩
    · intro ht
      rw [h] at ht
      cases ht
    · unfold is_quota_exceeded
      rw [if_neg (by simp [h])]
      exact ⟨rfl, rfl⟩
    · unfold is_quota_exceeded
      rw [if_neg (by simp [h])]

/-- Witness for C4: a key whose boundary 2024-01-01 has passed, checked
on 2024-03-15. -/
theorem quota_check_lazy_reset_witness :
    is_quota_expired
      (⟨1, StoredHash.bcrypt 10 "s", "n", "free", 1000, 5,
        ⟨2024, 1, 1, 0⟩, true, none, 1⟩ : ApiKey).quota_reset_date
      ⟨2024, 3, 15, 0⟩ = true ∧
    (is_quota_exceeded
      ⟨1, StoredHash.bcrypt 10 "s", "n", "free", 1000, 5,
        ⟨2024, 1, 1, 0⟩, true, none, 1⟩ ⟨2024, 3, 15, 0⟩).1 = false ∧
    (is_quota_exceeded
      ⟨1, StoredHash.bcrypt 10 "s", "n", "free", 1000, 5,
        ⟨2024, 1, 1, 0⟩, true, none, 1⟩ ⟨2024, 3, 15, 0⟩).2.quota_used =
      0 := by
  have h := (quota_check_lazy_reset
    ⟨1, StoredHash.bcrypt 10 "s", "n", "free", 1000, 5,
      ⟨2024, 1, 1, 0⟩, true, none, 1⟩ ⟨2024, 3, 15, 0⟩).1 (by decide)
  exact ⟨by decide, h.1, h.2.1⟩

/-- Claim C8: every reset boundary the system writes (`quota_reset_date`
at key creation and at lazy reset) is the first day of the calendar month
strictly after the writing moment at midnight UTC, with December rolling
over to January of the next year. -/
theorem quota_reset_date_first_of_month (now : UTCTime)
    (h1 : 1 ≤ now.month) (h2 : now.month ≤ 12) :
    (calculate_quota_reset_date now).day = 1 ∧
    (calculate_quota_reset_date now).micro = 0 ∧
    UTCTime.ltb now (calculate_quota_reset_date now) = true ∧
    1 ≤ (calculate_quota_reset_date now).month ∧
    (calculate_quota_reset_date now).month ≤ 12 ∧
    (now.month = 12 →
      calculate_quota_reset_date now = ⟨now.year + 1, 1, 1, 0⟩) ∧
    (now.month < 12 →
      calculate_quota_reset_date now = ⟨now.year, now.month + 1, 1, 0⟩) ∧
    (∀ (keys : List ApiKey) (userId : ℕ) (nm tr : String) (newId : ℕ)
        (hex : String) (out : List ApiKey × ApiKey × String),
      create_api_key keys userId nm tr newId hex now = Except.ok out →
      out.2.1.quota_reset_date = calculate_quota_reset_date now) ∧
    (∀ key : ApiKey, is_quota_expired key.quota_reset_date now = true →
      (is_quota_exceeded key now).2.quota_reset_date =
        calculate_quota_reset_date now) := by
  refine ⟨?_, ?_, ltb_calculate_quota_reset_date now, ?_, ?_, ?_, ?_,
    ?_, ?_⟩
  · unfold calculate_quota_reset_date
    by_cases h : now.month = 12 <;> simp [h]
  · unfold calculate_quota_reset_date
    by_cases h : now.month = 12 <;> simp [h]
  · unfold calculate_quota_reset_date
    by_cases h : now.month = 12
    · simp [h]
    · simp [h]
  · unfold calculate_quota_reset_date
    by_cases h : now.month = 12
    · simp [h]
    · simp [h]
      omega
  · intro h
    unfold calculate_quota_reset_date
    rw [if_pos h]
  · intro h
    unfold calculate_quota_reset_date
    rw [if_neg (by omega)]
  · intro keys userId nm tr newId hex out hok
    unfold create_api_key at hok
    by_cases hcnt : 10 ≤ (keys.filter
        (fun k => decide (k.user_id = userId) && k.is_active)).length
    · rw [if_pos hcnt] at hok; cases hok
    · rw [if_neg hcnt] at hok
      cases hok
      rfl
  · intro key hexp
    unfold is_quota_exceeded
    rw [if_pos hexp]

/-- If nothing in the deque is older than the cutoff, the cleanup loop
removes nothing. -/
lemma dropOldLoop_eq_self {c : ℤ} {dq : List ℤ} (h : ∀ x ∈ dq, c ≤ x) :
    dropOldLoop c dq = dq := by
  cases dq with
  | nil => rfl
  | cons t ts =>
    simp only [dropOldLoop]
    rw [if_neg (not_lt.mpr (h t (List.mem_cons_self t ts)))]

/-- On a sorted deque the cleanup loop removes exactly the entries
strictly older than the cutoff. -/
lemma dropOldLoop_sorted_filter {c : ℤ} {dq : List ℤ}
    (h : dq.Sorted (· ≤ ·)) :
    dropOldLoop c dq = dq.filter (fun t => decide (c ≤ t)) := by
  induction dq with
  | nil => rfl
  | cons t ts ih =>
    rw [List.sorted_cons] at h
    by_cases hc : t < c
    · simp only [dropOldLoop]
      rw [if_pos hc, List.filter_cons_of_neg (by simpa using not_le.mpr hc)]
      exact ih h.2
    · simp only [dropOldLoop]
      rw [if_neg hc, List.filter_cons_of_pos (by simpa using not_lt.mp hc)]
      congr 1
      exact (List.filter_eq_self.mpr
        (fun b hb => by
          simpa using le_trans (not_lt.mp hc) (h.1 b hb))).symm

/-- Decisions of a run of `is_allowed` calls all lying inside one sliding
window: nothing is ever dropped, so the i-th call is allowed exactly when
the deque still has room. -/
lemma runCalls_results (L : ℕ) (ts : List ℤ) (dq : List ℤ)
    (Hdq : ∀ x ∈ dq, ∀ t ∈ ts, t - 3600 ≤ x)
    (Hts : ts.Pairwise (fun a b => a ≤ b ∧ b - 3600 ≤ a)) :
    (runCalls L ts dq).1 =
      (List.range ts.length).map (fun i => decide (dq.length + i < L)) := by
  induction ts generalizing dq with
  | nil => rfl
  | cons t rest ih =>
    rw [List.pairwise_cons] at Hts
    have hdrop : dropOldLoop (t - 3600) dq = dq :=
      dropOldLoop_eq_self
        (fun x hx => Hdq x hx t (List.mem_cons_self t rest))
    rw [List.length_cons, List.range_succ_eq_map, List.map_cons,
      List.map_map]
    simp only [runCalls, is_allowed_dq, hdrop]
    by_cases hL : L ≤ dq.length
    · rw [if_pos hL]
      simp only
      rw [ih dq (fun x hx s hs => Hdq x hx s (List.mem_cons_of_mem t hs))
        Hts.2]
      congr 1
      · dsimp only
        rw [eq_comm, decide_eq_false_iff_not]
        omega
      · exact List.map_congr_left
          (fun i _ => by simp only [Function.comp_apply,
            decide_eq_decide]; omega)
    · rw [if_neg hL]
      simp only
      have Hdq' : ∀ x ∈ dq ++ [t], ∀ s ∈ rest, s - 3600 ≤ x := by
        intro x hx s hs
        rcases List.mem_append.mp hx with hxd | hxt
        · exact Hdq x hxd s (List.mem_cons_of_mem t hs)
        · rw [List.mem_singleton.mp hxt]
          exact (Hts.1 s hs).2
      rw [ih (dq ++ [t]) Hdq' Hts.2]
      congr 1
      · dsimp only
        rw [eq_comm, decide_eq_true_eq]
        omega
      · exact List.map_congr_left
          (fun i _ => by simp only [Function.comp_apply,
            List.length_append, List.length_singleton,
            decide_eq_decide]; omega)

/-- The first `L` of `L+1` slots fit under the limit and the last does
not. -/
lemma range_map_decide_lt (L : ℕ) :
    (List.range (L + 1)).map (fun i => decide (i < L)) =
      List.replicate L true ++ [false] := by
  induction L with
  | zero => simp
  | succ n ih =>
    rw [List.range_succ, List.map_append]
    have h1 : (List.range (n + 1)).map (fun i => decide (i < n + 1)) =
        List.replicate (n + 1) true := by
      refine List.eq_replicate_iff.mpr ⟨by simp, fun b hb => ?_⟩
      rcases List.mem_map.mp hb with ⟨i, hi, hbi⟩
      rw [← hbi, decide_eq_true_eq]
      exact List.mem_range.mp hi
    rw [h1]
    simp

/-- Claim C3: each rate-limit check drops exactly the recorded timestamps
strictly older than one hour before the check time (on a sorted deque),
allows iff the remaining count is strictly below the limit (count equal
to the limit rejects), appends the current time only on allow; and of
L+1 calls issued within one hour of each other starting from an empty
deque, exactly the first L are allowed and the (L+1)-th is rejected. -/
theorem rate_limit_sliding_window (L : ℕ) (dq : List ℤ) (now : ℤ)
    (ts : List ℤ) (hsort : dq.Sorted (· ≤ ·))
    (hts : ts.Pairwise (fun a b => a ≤ b ∧ b - 3600 ≤ a))
    (hlen : ts.length = L + 1) :
    dropOldLoop (now - 3600) dq =
      dq.filter (fun t => decide (now - 3600 ≤ t)) ∧
    ((is_allowed_dq dq L now).1 = true ↔
      (dropOldLoop (now - 3600) dq).length < L) ∧
    ((is_allowed_dq dq L now).1 = true →
      (is_allowed_dq dq L now).2 =
        dropOldLoop (now - 3600) dq ++ [now]) ∧
    ((is_allowed_dq dq L now).1 = false →
      (is_allowed_dq dq L now).2 = dropOldLoop (now - 3600) dq) ∧
    (runCalls L ts []).1 = List.replicate L true ++ [false] := by
  refine ⟨dropOldLoop_sorted_filter hsort, ?_, ?_, ?_, ?_⟩
  · unfold is_allowed_dq
    by_cases hL : L ≤ (dropOldLoop (now - 3600) dq).length
    · rw [if_pos hL]
      dsimp only
      constructor
      · intro hfalse
        cases hfalse
      · intro hlt
        exact absurd hlt (by omega)
    · rw [if_neg hL]
      dsimp only
      constructor
      · intro _
        omega
      · intro _
        rfl
  · unfold is_allowed_dq
    by_cases hL : L ≤ (dropOldLoop (now - 3600) dq).length
    · rw [if_pos hL]
      intro hfalse
      cases hfalse
    · rw [if_neg hL]
      intro _
      rfl
  · unfold is_allowed_dq
    by_cases hL : L ≤ (dropOldLoop (now - 3600) dq).length
    · rw [if_pos hL]
      intro _
      rfl
    · rw [if_neg hL]
      intro htrue
      cases htrue
  · rw [runCalls_results L ts [] (by simp) hts]
    simp only [List.length_nil, Nat.zero_add, hlen]
    exact range_map_decide_lt L

/-- Witness for C3 with limit 2 and three calls at clock readings 0, 1,
2. -/
theorem rate_limit_sliding_window_witness :
    ([(0 : ℤ), 1, 2].Pairwise (fun a b => a ≤ b ∧ b - 3600 ≤ a)) ∧
    (runCalls 2 [(0 : ℤ), 1, 2] []).1 =
      List.replicate 2 true ++ [false] := by
  refine ⟨by decide, ?_⟩
  exact (rate_limit_sliding_window 2 [] 0 [(0 : ℤ), 1, 2]
    (by simp) (by decide) (by decide)).2.2.2.2

/-- Reading back the deque just stored for a key returns that deque. -/
lemma getDeque_setDeque (rl : RLState) (k : StoredHash) (dq : List ℤ) :
    (rl.setDeque k dq).getDeque k = dq := by
  induction rl with
  | nil => simp [RLState.setDeque, RLState.getDeque]
  | cons p rest ih =>
    by_cases h : p.1 = k
    · simp [RLState.setDeque, RLState.getDeque, h]
    · simp [RLState.setDeque, RLState.getDeque, h, ih]

/-- Claim C10 (amended): after an `is_allowed` call at time `now` on a
sorted deque of past timestamps, the key's deque is still sorted, every
remaining timestamp lies in the closed-left interval
[now − 3600, now] (an entry exactly one hour old is retained, since the
cleanup drops only entries strictly older), and when the call allowed
the request the deque's length is at most the limit. -/
theorem rate_limiter_deque_invariant (dq : List ℤ) (L : ℕ) (now : ℤ)
    (hsort : dq.Sorted (· ≤ ·)) (hle : ∀ x ∈ dq, x ≤ now) :
    ((is_allowed_dq dq L now).2).Sorted (· ≤ ·) ∧
    (∀ t ∈ (is_allowed_dq dq L now).2, now - 3600 ≤ t ∧ t ≤ now) ∧
    ((is_allowed_dq dq L now).1 = true →
      (is_allowed_dq dq L now).2.length ≤ L) ∧
    (∀ (rl : RLState) (k : StoredHash),
      ((RateLimiter.is_allowed rl k L now).2).getDeque k =
        (is_allowed_dq (rl.getDeque k) L now).2) := by
  have hdrop := dropOldLoop_sorted_filter (c := now - 3600) hsort
  have hmemdrop : ∀ t ∈ dropOldLoop (now - 3600) dq,
      now - 3600 ≤ t ∧ t ≤ now := by
    intro t ht
    rw [hdrop] at ht
    have h1 := List.of_mem_filter ht
    have h2 := List.mem_of_mem_filter ht
    exact ⟨by simpa using h1, hle t h2⟩
  have hsortdrop : (dropOldLoop (now - 3600) dq).Sorted (· ≤ ·) := by
    rw [hdrop]
    exact List.Pairwise.filter _ hsort
  unfold is_allowed_dq
  by_cases hL : L ≤ (dropOldLoop (now - 3600) dq).length
  · rw [if_pos hL]
    refine ⟨hsortdrop, hmemdrop, ?_, ?_⟩
    · intro hfalse
      cases hfalse
    · intro rl k
      unfold RateLimiter.is_allowed is_allowed_dq
      rw [getDeque_setDeque]
  · rw [if_neg hL]
    dsimp only
    refine ⟨?_, ?_, ?_, ?_⟩
    · refine List.pairwise_append.mpr
        ⟨hsortdrop, List.pairwise_singleton _ _, ?_⟩
      intro a ha b hb
      rw [List.mem_singleton.mp hb]
      exact (hmemdrop a ha).2
    · intro t ht
      rcases List.mem_append.mp ht with hd | hn
      · exact hmemdrop t hd
      · rw [List.mem_singleton.mp hn]
        omega
    · intro _
      rw [List.length_append, List.length_singleton]
      omega
    · intro rl k
      unfold RateLimiter.is_allowed is_allowed_dq
      rw [getDeque_setDeque]

/-- Witness for C10: a call at time 7 with limit 3 on the sorted deque
[0, 5]. -/
theorem rate_limiter_deque_invariant_witness :
    ([(0 : ℤ), 5].Sorted (· ≤ ·)) ∧
    (∀ t ∈ (is_allowed_dq [(0 : ℤ), 5] 3 7).2,
      (7 : ℤ) - 3600 ≤ t ∧ t ≤ 7) := by
  refine ⟨by decide, ?_⟩
  exact (rate_limiter_deque_invariant [(0 : ℤ), 5] 3 7 (by decide)
    (by decide)).2.1

/-- Counterexample to C10 as stated: with a nondecreasing clock (calls at
0 and then 3600, limit 2) the entry 0 — appended by the first call — is
retained by the second call at `now = 3600`, yet 0 does not lie in the
open-left interval (now − 3600, now] because now − 3600 < 0 fails. -/
theorem rate_limiter_deque_open_interval_counterexample :
    (is_allowed_dq [] 2 0).1 = true ∧
    (is_allowed_dq (is_allowed_dq [] 2 0).2 2 3600).1 = true ∧
    (0 : ℤ) ∈ (is_allowed_dq (is_allowed_dq [] 2 0).2 2 3600).2 ∧
    ¬ ((3600 : ℤ) - 3600 < 0) := by decide

/-- Witness for C8 at the December instant 2024-12-31, 100 µs past
midnight. -/
theorem quota_reset_date_first_of_month_witness :
    (calculate_quota_reset_date ⟨2024, 12, 31, 100⟩).day = 1 ∧
    calculate_quota_reset_date ⟨2024, 12, 31, 100⟩ =
      ⟨2024 + 1, 1, 1, 0⟩ := by
  have h := quota_reset_date_first_of_month ⟨2024, 12, 31, 100⟩
    (by decide) (by decide)
  exact ⟨h.1, h.2.2.2.2.2.1 (by decide)⟩

/-- A key returned by the Key Store lookup is one of the stored rows, is
active, and verifies against the presented key. -/
lemma validate_api_key_mem {keys : List ApiKey} {k : String}
    {info : ApiKey} (h : validate_api_key keys k = some info) :
    info ∈ keys ∧ info.is_active = true ∧
      verify_api_key k info.key_hash = true := by
  unfold validate_api_key at h
  have h1 := List.find?_some h
  have h2 := List.mem_of_find?_eq_some h
  exact ⟨List.mem_of_mem_filter h2, List.of_mem_filter h2, h1⟩

/-- Reading a row by id after an id-preserving row update. -/
lemma getKeyById_updateKeyById (keys : List ApiKey) (kid : ℕ)
    (f : ApiKey → ApiKey) (hf : ∀ k, (f k).id = k.id) :
    getKeyById (updateKeyById keys kid f) kid =
      (getKeyById keys kid).map f := by
  induction keys with
  | nil => rfl
  | cons k ks ih =>
    unfold updateKeyById getKeyById
    unfold updateKeyById getKeyById at ih
    rw [List.map_cons]
    by_cases h : k.id = kid
    · rw [if_pos h,
        List.find?_cons_of_pos _ (by simpa [hf k] using h),
        List.find?_cons_of_pos _ (by simpa using h)]
      rfl
    · rw [if_neg h,
        List.find?_cons_of_neg _ (by simpa using h),
        List.find?_cons_of_neg _ (by simpa using h)]
      exact ih

/-- The request of the repository's own test `test_missing_api_key`
(src/tests/test_auth.py): `GET /v1/sightings` with no key headers. -/
def sightingsNoKeyRequest : GatewayRequest :=
  { path := "/v1/sightings", method := "GET", xApiKey := none
    authorization := none, userAgent := none, forwardedFor := none
    realIp := none, clientHost := none }

/-- A one-key table fixture. -/
def sampleState : GatewayState :=
  { keys := [⟨1, StoredHash.bcrypt 10 "secret", "k", "free", 1000, 5,
      ⟨2024, 1, 1, 0⟩, true, none, 1⟩]
    usages := [], rl := [] }

/-- Claim C1 (evaluated at the failing input): `GET /v1/sightings` with a
key in neither header is not answered 401; because `"/"` is on the
`startswith` allowlist, `_is_public_endpoint` accepts every path
beginning with a slash, so the middleware bypasses the whole pipeline
and passes the request through to the downstream handler, writing
nothing — contradicting the claim and the repository's own test
`test_missing_api_key`, which expects 401 `authentication_error` on this
request. -/
theorem public_allowlist_matches_every_path :
    extract_api_key sightingsNoKeyRequest = none ∧
    strStartsWith "/v1/sightings" "/" = true ∧
    is_public_endpoint "/v1/sightings" = true ∧
    middlewareCall sampleState sightingsNoKeyRequest ⟨2024, 3, 15, 0⟩ 0
        200 5 false =
      { outcome := GatewayOutcome.passthrough 200
        keyStoreConsulted := false, handlerInvoked := true
        raised := false, state := sampleState } := by decide

/-- Claim C2 (amended): for every request entering the pipeline
(non-public path), if all of key extraction, key resolution, the
is_active check (implied by resolution, which only returns active rows),
the quota check and the rate-limit check pass and the downstream handler
completes with a successful bookkeeping write, then exactly one Usage
record is inserted and the key row's quota counter is incremented by
exactly 1 with `last_used` set, regardless of the handler's status; every
rejected request inserts zero Usage records and never increments the
counter — but a request whose quota check lazily resets an expired
period writes `quota_used = 0` even when the rate-limit check
subsequently rejects it. -/
theorem usage_quota_pairing (st : GatewayState) (req : GatewayRequest)
    (now : UTCTime) (rlNow : ℤ) (hs rtms : ℕ)
    (hpub : is_public_endpoint req.path = false) :
    (extract_api_key req = none ∨ extract_api_key req = some "" →
      middlewareCall st req now rlNow hs rtms false =
        { outcome := GatewayOutcome.errorResponse 401
            "authentication_error"
            "API key required. Include 'X-API-Key' header or 'Authorization: Bearer <key>' header."
          keyStoreConsulted := false, handlerInvoked := false
          raised := false, state := st }) ∧
    (∀ k, extract_api_key req = some k → k ≠ "" →
      validate_api_key st.keys k = none →
      middlewareCall st req now rlNow hs rtms false =
        { outcome := GatewayOutcome.errorResponse 401
            "authentication_error"
            "The provided API key is invalid or has been revoked."
          keyStoreConsulted := true, handlerInvoked := false
          raised := false, state := st }) ∧
    (∀ k info, extract_api_key req = some k → k ≠ "" →
      validate_api_key st.keys k = some info →
      is_quota_expired info.quota_reset_date now = false →
      info.quota_limit ≤ info.quota_used →
      middlewareCall st req now rlNow hs rtms false =
        { outcome := GatewayOutcome.errorResponse 429 "quota_exceeded"
            ("Monthly quota of " ++ toString info.quota_limit ++
             " requests exceeded.")
          keyStoreConsulted := true, handlerInvoked := false
          raised := false, state := st }) ∧
    (∀ k info, extract_api_key req = some k → k ≠ "" →
      validate_api_key st.keys k = some info →
      (is_quota_expired info.quota_reset_date now = true ∨
        info.quota_used < info.quota_limit) →
      (is_allowed_dq (st.rl.getDeque info.key_hash)
        (get_rate_limit_for_tier info.tier) rlNow).1 = false →
      getKeyById st.keys info.id = some info →
      (middlewareCall st req now rlNow hs rtms false).outcome.errCode =
        some "rate_limit_exceeded" ∧
      (middlewareCall st req now rlNow hs rtms false).state.usages =
        st.usages ∧
      (middlewareCall st req now rlNow hs rtms false).handlerInvoked =
        false ∧
      getKeyById
        (middlewareCall st req now rlNow hs rtms false).state.keys
        info.id =
        some (if is_quota_expired info.quota_reset_date now = true then
          { info with quota_used := 0
                      quota_reset_date := calculate_quota_reset_date now }
        else info)) ∧
    (∀ k info, extract_api_key req = some k → k ≠ "" →
      validate_api_key st.keys k = some info →
      (is_quota_expired info.quota_reset_date now = true ∨
        info.quota_used < info.quota_limit) →
      (is_allowed_dq (st.rl.getDeque info.key_hash)
        (get_rate_limit_for_tier info.tier) rlNow).1 = true →
      getKeyById st.keys info.id = some info →
      (middlewareCall st req now rlNow hs rtms false).outcome =
        GatewayOutcome.handled hs ∧
      (middlewareCall st req now rlNow hs rtms false).handlerInvoked =
        true ∧
      (middlewareCall st req now rlNow hs rtms false).raised = false ∧
      (middlewareCall st req now rlNow hs rtms false).state.usages =
        st.usages ++
          [{ api_key_id := info.id, endpoint := req.path
             method := req.method, response_status := hs
             response_time_ms := rtms, user_agent := req.userAgent
             ip_address := get_client_ip req, timestamp := now }] ∧
      getKeyById
        (middlewareCall st req now rlNow hs rtms false).state.keys
        info.id =
        some { info with
          quota_used :=
            (if is_quota_expired info.quota_reset_date now = true then 0
             else info.quota_used) + 1
          quota_reset_date :=
            (if is_quota_expired info.quota_reset_date now = true then
              calculate_quota_reset_date now
             else info.quota_reset_date)
          last_used := some now }) := by
  refine ⟨?_, ?_, ?_, ?_, ?_⟩
  · intro hext
    rcases hext with hnone | hempty
    · simp [middlewareCall, hpub, hnone]
    · simp [middlewareCall, hpub, hempty]
  · intro k hext hk hval
    simp [middlewareCall, hpub, hext, hk, hval]
  · intro k info hext hk hval hexp hq
    have hact := (validate_api_key_mem hval).2.1
    simp [middlewareCall, hpub, hext, hk, hval, hact, hexp, hq]
  · intro k info hext hk hval hquota hrate hrow
    have hact := (validate_api_key_mem hval).2.1
    by_cases hexp : is_quota_expired info.quota_reset_date now = true
    · simp only [middlewareCall, hpub, Bool.false_eq_true, if_false,
        hext, hk, hval, hact, hexp, if_true, gatewayAfterQuota,
        RateLimiter.is_allowed]
      rw [if_neg (by simp), if_pos hrate]
      refine ⟨rfl, rfl, rfl, ?_⟩
      have h1 := getKeyById_updateKeyById st.keys info.id
        (fun k => { k with quota_used := 0
                           quota_reset_date :=
                             calculate_quota_reset_date now })
        (fun x => rfl)
      rw [h1, hrow]
      simp [hact]
    · have hlt : info.quota_used < info.quota_limit := by
        rcases hquota with h | h
        · exact absurd h hexp
        · exact h
      simp only [middlewareCall, hpub, Bool.false_eq_true, if_false,
        hext, hk, hval, hact]
      rw [if_neg (by simp), if_neg hexp,
        if_neg (by simp only [decide_eq_true_eq]; omega)]
      simp only [gatewayAfterQuota, RateLimiter.is_allowed]
      rw [if_pos hrate]
      refine ⟨rfl, rfl, rfl, ?_⟩
      rw [if_neg hexp]
      exact hrow
  · intro k info hext hk hval hquota hrate hrow
    have hact := (validate_api_key_mem hval).2.1
    by_cases hexp : is_quota_expired info.quota_reset_date now = true
    · simp only [middlewareCall, hpub, Bool.false_eq_true, if_false,
        hext, hk, hval, hact, hexp, if_true, gatewayAfterQuota,
        RateLimiter.is_allowed]
      rw [if_neg (by simp), if_neg (by simp [hrate])]
      refine ⟨rfl, rfl, rfl, rfl, ?_⟩
      have h1 := getKeyById_updateKeyById st.keys info.id
        (fun k => { k with quota_used := 0
                           quota_reset_date :=
                             calculate_quota_reset_date now })
        (fun x => rfl)
      have h2 := getKeyById_updateKeyById
        (updateKeyById st.keys info.id
          (fun k => { k with quota_used := 0
                             quota_reset_date :=
                               calculate_quota_reset_date now }))
        info.id
        (fun k => { k with quota_used := k.quota_used + 1
                           last_used := some now })
        (fun x => rfl)
      rw [h2, h1, hrow]
      simp [hact, hexp]
    · have hlt : info.quota_used < info.quota_limit := by
        rcases hquota with h | h
        · exact absurd h hexp
        · exact h
      simp only [middlewareCall, hpub, Bool.false_eq_true, if_false,
        hext, hk, hval, hact]
      rw [if_neg (by simp), if_neg hexp,
        if_neg (by simp only [decide_eq_true_eq]; omega)]
      simp only [gatewayAfterQuota, RateLimiter.is_allowed]
      rw [if_neg (by simp [hrate]), if_neg (by simp)]
      refine ⟨rfl, rfl, rfl, rfl, ?_⟩
      have h2 := getKeyById_updateKeyById st.keys info.id
        (fun k => { k with quota_used := k.quota_used + 1
                           last_used := some now })
        (fun x => rfl)
      rw [h2, hrow]
      simp [hact, hexp]

/-- A request presenting the key "secret" on the non-public path "x". -/
def demoRequest : GatewayRequest :=
  { path := "x", method := "GET", xApiKey := some "secret"
    authorization := none, userAgent := none, forwardedFor := none
    realIp := none, clientHost := none }

/-- An active free-tier key within its quota period. -/
def demoKey : ApiKey :=
  ⟨1, StoredHash.bcrypt 10 "secret", "k", "free", 1000, 5,
    ⟨2999, 1, 1, 0⟩, true, none, 1⟩

/-- State holding only `demoKey`, empty ledger, empty rate limiter. -/
def demoState : GatewayState :=
  { keys := [demoKey], usages := [], rl := [] }

/-- Witness for C2: the accepted request appends one usage row and bumps
the key from 5 to 6 with `last_used` set. -/
theorem usage_quota_pairing_witness :
    (middlewareCall demoState demoRequest ⟨2024, 3, 15, 0⟩ 1000 200 5
      false).outcome = GatewayOutcome.handled 200 ∧
    (middlewareCall demoState demoRequest ⟨2024, 3, 15, 0⟩ 1000 200 5
      false).state.usages.length = demoState.usages.length + 1 ∧
    getKeyById (middlewareCall demoState demoRequest ⟨2024, 3, 15, 0⟩
      1000 200 5 false).state.keys demoKey.id =
      some { demoKey with quota_used := 6
                          last_used := some ⟨2024, 3, 15, 0⟩ } := by
  have h := (usage_quota_pairing demoState demoRequest ⟨2024, 3, 15, 0⟩
    1000 200 5 (by decide)).2.2.2.2 "secret" demoKey (by decide)
    (by decide) (by decide) (Or.inr (by decide)) (by decide) (by decide)
  refine ⟨h.1, ?_, ?_⟩
  · rw [h.2.2.2.1]
    simp
  · rw [h.2.2.2.2]
    decide

/-- The key of `demoRequest` but with an expired quota period. -/
def expiredDemoKey : ApiKey :=
  ⟨1, StoredHash.bcrypt 10 "secret", "k", "free", 1000, 5,
    ⟨2024, 1, 1, 0⟩, true, none, 1⟩

/-- State with the expired key and that key's rate-limit deque already
holding 60 in-window timestamps (the free-tier hourly limit). -/
def expiredFullState : GatewayState :=
  { keys := [expiredDemoKey], usages := []
    rl := [(StoredHash.bcrypt 10 "secret",
            List.replicate 60 (1000 : ℤ))] }

/-- Counterexample to C2 as stated: this request is rejected at the
rate-limit check (so it clears the quota check but is not accepted), and
no Usage record is written — yet the key's `quota_used` changes from 5
to 0, because the quota check lazily reset the expired period before the
rate limiter rejected.  C2's words "for every request rejected at any of
those checks … quota_used is unchanged" are false here. -/
theorem usage_quota_pairing_counterexample :
    (middlewareCall expiredFullState demoRequest ⟨2024, 3, 15, 0⟩ 1000
      200 5 false).outcome.errCode = some "rate_limit_exceeded" ∧
    (middlewareCall expiredFullState demoRequest ⟨2024, 3, 15, 0⟩ 1000
      200 5 false).state.usages = [] ∧
    (getKeyById expiredFullState.keys 1).map (fun k => k.quota_used) =
      some 5 ∧
    (getKeyById (middlewareCall expiredFullState demoRequest
      ⟨2024, 3, 15, 0⟩ 1000 200 5 false).state.keys 1).map
        (fun k => k.quota_used) = some 0 := by decide

/-- Claim C5 (amended): when the usage-ledger insert raises after the
downstream handler completed, the middleware does not swallow the
exception — there is no try/except around `_record_usage` in
`__call__`, so it escapes the middleware call — and the subsequent
quota/`last_used` increment is skipped; the response, which was sent
before the write was attempted, is still the handler's own. -/
theorem usage_write_failure_propagates (st : GatewayState)
    (req : GatewayRequest) (now : UTCTime) (rlNow : ℤ) (hs rtms : ℕ)
    (k : String) (info : ApiKey)
    (hpub : is_public_endpoint req.path = false)
    (hext : extract_api_key req = some k) (hk : k ≠ "")
    (hval : validate_api_key st.keys k = some info)
    (hquota : is_quota_expired info.quota_reset_date now = true ∨
      info.quota_used < info.quota_limit)
    (hrate : (is_allowed_dq (st.rl.getDeque info.key_hash)
      (get_rate_limit_for_tier info.tier) rlNow).1 = true)
    (hrow : getKeyById st.keys info.id = some info) :
    (middlewareCall st req now rlNow hs rtms true).outcome =
      GatewayOutcome.handled hs ∧
    (middlewareCall st req now rlNow hs rtms true).raised = true ∧
    (middlewareCall st req now rlNow hs rtms true).state.usages =
      st.usages ∧
    getKeyById (middlewareCall st req now rlNow hs rtms true).state.keys
      info.id =
      some (if is_quota_expired info.quota_reset_date now = true then
        { info with quota_used := 0
                    quota_reset_date := calculate_quota_reset_date now }
      else info) := by
  have hact := (validate_api_key_mem hval).2.1
  by_cases hexp : is_quota_expired info.quota_reset_date now = true
  · simp only [middlewareCall, hpub, Bool.false_eq_true, if_false,
      hext, hk, hval, hact, hexp, if_true, gatewayAfterQuota,
      RateLimiter.is_allowed]
    rw [if_neg (by simp), if_neg (by simp [hrate])]
    refine ⟨rfl, rfl, rfl, ?_⟩
    have h1 := getKeyById_updateKeyById st.keys info.id
      (fun k => { k with quota_used := 0
                         quota_reset_date :=
                           calculate_quota_reset_date now })
      (fun x => rfl)
    rw [h1, hrow]
    simp [hact, hexp]
  · have hlt : info.quota_used < info.quota_limit := by
      rcases hquota with h | h
      · exact absurd h hexp
      · exact h
    simp only [middlewareCall, hpub, Bool.false_eq_true, if_false,
      hext, hk, hval, hact]
    rw [if_neg (by simp), if_neg hexp,
      if_neg (by simp only [decide_eq_true_eq]; omega)]
    simp only [gatewayAfterQuota, RateLimiter.is_allowed]
    rw [if_neg (by simp [hrate]), if_pos trivial]
    refine ⟨rfl, rfl, rfl, ?_⟩
    rw [if_neg hexp]
    exact hrow

/-- Witness for C5 at the demo fixtures with a failing ledger write. -/
theorem usage_write_failure_propagates_witness :
    (middlewareCall demoState demoRequest ⟨2024, 3, 15, 0⟩ 1000 200 5
      true).outcome = GatewayOutcome.handled 200 ∧
    (middlewareCall demoState demoRequest ⟨2024, 3, 15, 0⟩ 1000 200 5
      true).raised = true := by
  have h := usage_write_failure_propagates demoState demoRequest
    ⟨2024, 3, 15, 0⟩ 1000 200 5 "secret" demoKey (by decide) (by decide)
    (by decide) (by decide) (Or.inr (by decide)) (by decide) (by decide)
  exact ⟨h.1, h.2.1⟩

/-- Counterexample to C5 as stated: on a fully accepted request whose
usage insert raises, the middleware call itself raises
(`raised = true`) — the failure is not caught or logged inside the
gateway, contradicting "the gateway swallows the failure … no gateway
error is propagated".  (The already-sent response is nevertheless the
handler's 200, and no quota increment happens.) -/
theorem usage_write_failure_swallowed_counterexample :
    (middlewareCall demoState demoRequest ⟨2024, 3, 15, 0⟩ 1000 200 5
      true).raised = true ∧
    (middlewareCall demoState demoRequest ⟨2024, 3, 15, 0⟩ 1000 200 5
      true).outcome = GatewayOutcome.handled 200 ∧
    (middlewareCall demoState demoRequest ⟨2024, 3, 15, 0⟩ 1000 200 5
      true).state.usages = [] ∧
    getKeyById (middlewareCall demoState demoRequest ⟨2024, 3, 15, 0⟩
      1000 200 5 true).state.keys 1 = some demoKey := by decide

end SkyWatch
